import Mathlib

/-!
Shallow embedding of the LEGO-Robot client (`robot.py`) and proofs about it.

The embedding models the `Robot` class of `robot.py` as a pure state type
`Robot.RobotState` together with state-passing functions, one per method of the
class that the verified properties concern:

* `Robot.turnCmds` / `Robot.turn_cardinal` — the cardinal-heading turn table
  (`turn_cardinal`, source lines 212–276);
* `Robot.run` / `Robot.back` / `Robot.brake` — the drivetrain primitives
  (source lines 278–329);
* `Robot.recvAux` — one iteration of the command-receive loop (`_recv_aux`,
  source lines 156–185), together with `Robot.stop` (205–210) and
  `Robot.disconnect` (331–339);
* `Robot.move` — the single-cell motion routine (source lines 341–398);
* `Robot.move_to_coords` — the coordinate traversal (source lines 400–481);
* `Robot.update_current_direction` — the dead-reckoning position update
  (`_update_current_direction`, source lines 499–511).

Hardware effects are embedded as explicit data: motor commands issued by a call
are appended to a command log in the state, sensor reads are drawn from an
explicit list of readings supplied to the function (one entry per call of
`light_sensor.get_color()`), and the temperature reading is an explicit
integer argument.  Python exceptions are modelled as an `Option RError`
(or `MoveOutcome.raised`) component of the result; Python string
concatenation `"..." + v`, which raises `TypeError` unless `v` is a `str`,
is modelled by `Robot.pyStrConcat`.
-/

namespace Robot

/-- Inbound and outbound wire values (after unpickling).  The source compares
the decoded value against the bare strings `"end"`, `"manual"`, `"auto"`,
`"start"`, `"stop"` and the motion words, so string messages are one
constructor; a coordinate pair `(x, y)`, the Python literal `False` produced
by the server's path planner, and the telemetry list `["pos", (x, y)]`
(source line 398) get their own constructors. -/
inductive Msg where
  | str (s : String)
  | pair (x y : Int)
  | pyFalse
  | posTel (x y : Int)
  deriving DecidableEq

/-- Python values that can be passed as the `speed` argument of `run`/`back`
or concatenated into a log string: an `int`, a `str`, a `bool`, or `None`.
The source guards `run`/`back` with `type(speed) is int`, which is `False`
for `bool` (a subclass) — hence `boolv` is distinct from `int`. -/
inductive PyVal where
  | int (n : Int)
  | str (s : String)
  | boolv (b : Bool)
  | noneV
  deriving DecidableEq

/-- The two drivetrain motors (left = PORT_A, right = PORT_B). -/
inductive Motor where
  | left
  | right
  deriving DecidableEq

/-- One command issued to a motor: `mrun m s` for `m.run(s)`, `mbrake m` for
`m.brake()`, and `mturn m p d` for `m.turn(p, d)`. -/
inductive MotorCmd where
  | mrun (m : Motor) (speed : Int)
  | mbrake (m : Motor)
  | mturn (m : Motor) (power : Int) (deg : Nat)
  deriving DecidableEq

/-- Errors (Python exceptions) raised by the embedded methods:
`invalidDirection` for `turn_cardinal`'s "direction has to be west, east,
north and south" Exception; `motorFault` for a failing underlying
`Motor.turn` call; `typeError` for Python `TypeError` (str + non-str
concatenation); `notInt` for the "speed has to be an int" Exception;
`badMoveDir` for `move`'s "direction has to be either goal, forward,
backward, right or left" Exception; `sockError` for an `OSError` from
sending on a closed socket. -/
inductive RError where
  | invalidDirection
  | motorFault
  | typeError
  | notInt
  | badMoveDir
  | sockError
  deriving DecidableEq

/-- The mutable attributes of the `Robot` object, plus the explicit effect
logs of the embedding: `log` records every motor command issued so far,
`sent` records every message sent on the server socket, `motorsRunning`
records whether the drivetrain has been commanded to run and not yet braked.
`RUN` and `MANUAL` are the source's flags of the same names; `sockOpen` /
`brickOpen` model whether `self.sock` / `self.brick.sock` are open. -/
structure RobotState where
  x : Int
  y : Int
  heading : String
  RUN : Bool
  MANUAL : Bool
  sockOpen : Bool
  brickOpen : Bool
  motorsRunning : Bool
  queue : List Msg
  sent : List Msg
  log : List MotorCmd
  deriving DecidableEq

/-- Python string concatenation `a + v` (source uses it to build log
messages): succeeds only when `v` is a `str`; for any other value Python
raises `TypeError`. -/
def pyStrConcat (a : String) (v : PyVal) : Except RError String :=
  match v with
  | .str t => .ok (a ++ t)
  | _ => .error .typeError

/-- The guard of `turn_cardinal`, source line 226:
`(direction == "west") | (direction == "east") | (direction == "north") |
(direction == "south")`. -/
def validDir (d : String) : Bool :=
  (d == "west") || (d == "east") || (d == "north") || (d == "south")

/-- The motor commands issued by `turn_cardinal`'s lookup table
(source lines 228–270) for current heading `cur` and target `d`; `[]` when no
branch matches (identical headings, or a heading outside the table). -/
def turnCmds (cur d : String) : List MotorCmd :=
  if cur = "west" then
    if d = "east" then [.mturn .left 64 180, .mturn .right (-64) 180]
    else if d = "north" then [.mturn .left 64 90, .mturn .right (-64) 90]
    else if d = "south" then [.mturn .left (-64) 90, .mturn .right 64 90]
    else []
  else if cur = "east" then
    if d = "west" then [.mturn .left 64 180, .mturn .right (-64) 180]
    else if d = "north" then [.mturn .left 64 90, .mturn .right (-64) 90]
    else if d = "south" then [.mturn .left (-64) 90, .mturn .right 64 90]
    else []
  else if cur = "north" then
    if d = "west" then [.mturn .left 64 90, .mturn .right (-64) 90]
    else if d = "east" then [.mturn .left (-64) 90, .mturn .right 64 90]
    else if d = "south" then [.mturn .left 64 90, .mturn .right (-64) 180]
    else []
  else if cur = "south" then
    if d = "west" then [.mturn .left (-64) 90, .mturn .right 64 90]
    else if d = "east" then [.mturn .left 64 90, .mturn .right (-64) 90]
    else if d = "north" then [.mturn .left (-64) 180, .mturn .right 64 180]
    else []
  else []

/-- Index of the first failing motor call in a sequence of `n` calls, under a
failure oracle `f` (`f i = true` means the `i`-th call raises). -/
def firstFailIdx (f : Nat → Bool) (n : Nat) : Option Nat :=
  (List.range n).find? f

/-- The failure oracle under which every motor call succeeds. -/
def noFail : Nat → Bool := fun _ => false

/-- `turn_cardinal(direction)` (source lines 212–276), parameterised by a
failure oracle `f` for the underlying `Motor.turn` calls.  If the direction
string is not one of the four cardinal words, the Exception at line 276 is
raised before any effect.  Otherwise, if the stored heading already equals
the target the body is `pass` (line 274).  Otherwise the table's motor calls
are issued in order; if the `k`-th call raises, the calls before it have
already been issued and the assignment `self.current_direction = direction`
at line 272 is never reached, so the exception propagates with the heading
unchanged.  If all calls succeed, line 272 stores the target heading. -/
def turn_cardinal (f : Nat → Bool) (s : RobotState) (d : String) :
    Option RError × RobotState :=
  if validDir d then
    if s.heading ≠ d then
      let cmds := turnCmds s.heading d
      match firstFailIdx f cmds.length with
      | some k => (some .motorFault, { s with log := s.log ++ cmds.take k })
      | none => (none, { s with heading := d, log := s.log ++ cmds })
    else (none, s)
  else (some .invalidDirection, s)

/-- `run(speed)` (source lines 278–299): if `type(speed) is int` fails, the
Exception at line 299 is raised with no motor command issued; otherwise, when
the left motor is idle both motors are commanded to run at `speed`, and when
it is not idle the body is `pass`.  The idle test of the physical left motor
is the boolean parameter `leftIdle`. -/
def run (speed : PyVal) (leftIdle : Bool) (s : RobotState) :
    Option RError × RobotState :=
  match speed with
  | .int n =>
    if leftIdle then
      (none, { s with log := s.log ++ [.mrun .left n, .mrun .right n],
                      motorsRunning := true })
    else (none, s)
  | _ => (some .notInt, s)

/-- `back(speed)` (source lines 301–322): same shape as `run`, with both
motors commanded at `-speed`. -/
def back (speed : PyVal) (leftIdle : Bool) (s : RobotState) :
    Option RError × RobotState :=
  match speed with
  | .int n =>
    if leftIdle then
      (none, { s with log := s.log ++ [.mrun .left (-n), .mrun .right (-n)],
                      motorsRunning := true })
    else (none, s)
  | _ => (some .notInt, s)

/-- `brake()` (source lines 324–329): brakes the left then the right motor. -/
def brake (s : RobotState) : RobotState :=
  { s with log := s.log ++ [.mbrake .left, .mbrake .right],
           motorsRunning := false }

/-- `stop()` (source lines 205–210): plays a tone (feedback only, not
modelled) and clears the `RUN` flag.  It issues no motor command. -/
def stop (s : RobotState) : RobotState :=
  { s with RUN := false }

/-- `disconnect()` (source lines 331–339): sends a final `"end"` message on
the server socket, sleeps one second (the drain delay — pure time, no state
effect), then closes the brick socket and the server socket.  It issues no
motor command. -/
def disconnect (s : RobotState) : RobotState :=
  { s with sent := s.sent ++ [.str "end"], sockOpen := false,
           brickOpen := false }

/-- One attempted receive observed by `_recv_aux` (source lines 156–185):
either a successfully received and unpickled value, or a failure of
`sock.recv` / `pickle.loads` (caught by the `except` at line 183). -/
inductive RecvEvent where
  | msg (m : Msg)
  | recvFailed
  deriving DecidableEq

/-- One iteration of `_recv_aux` (source lines 156–185).  A failed receive is
swallowed (`except: pass`).  A receive on a closed socket raises inside the
`try` and is likewise swallowed, leaving the state unchanged.  Otherwise the
decoded value is dispatched: `"end"` clears `RUN` and disconnects; `"manual"`
/ `"auto"` set/clear the `MANUAL` flag; `"start"` enters `_start_aux`, whose
immediate effect is to set `RUN` (its nested receive/move iterations are
modelled as the subsequent steps of the event trace); `"stop"` calls
`stop()`; every other value is appended to `direction_queue`. -/
def recvAux (s : RobotState) (ev : RecvEvent) : RobotState :=
  match ev with
  | .recvFailed => s
  | .msg m =>
    if s.sockOpen then
      if m = .str "end" then disconnect { s with RUN := false }
      else if m = .str "manual" then { s with MANUAL := true }
      else if m = .str "auto" then { s with MANUAL := false }
      else if m = .str "start" then { s with RUN := true }
      else if m = .str "stop" then stop s
      else { s with queue := s.queue ++ [m] }
    else s

/-- Whether a decoded value is one of the five control strings handled inside
`_recv_aux` itself (source lines 163–178). -/
def controlMsg (m : Msg) : Bool :=
  match m with
  | .str t =>
    (t == "end") || (t == "manual") || (t == "auto") || (t == "start") ||
      (t == "stop")
  | _ => false

/-- Fold of `recvAux` over a list of successfully received messages. -/
def processMsgs (s : RobotState) (ms : List Msg) : RobotState :=
  ms.foldl (fun t m => recvAux t (.msg m)) s

/-- Fold of `recvAux` over an arbitrary event trace: the iterations of the
`while True` loop of `recv(None)` (source lines 147–149). -/
def processEvents (s : RobotState) (evs : List RecvEvent) : RobotState :=
  evs.foldl recvAux s

/-- `n` successive `direction_queue.get()` calls by the motion side,
returning the dequeued values in order.  `Queue.get` on an empty queue
blocks, so consumption stops there. -/
def consumeN : Nat → RobotState → List Msg × RobotState
  | 0, s => ([], s)
  | n + 1, s =>
    match s.queue with
    | [] => ([], s)
    | m :: rest =>
      let p := consumeN n { s with queue := rest }
      (m :: p.1, p.2)

/-- Outcome of a `move` / `move_to_coords` call: `done` for the early
`return "done"` on `"goal"`; `normal` for a normal return; `raised e` for a
propagating exception; `spins` when the call never returns within the
supplied sensor trace (the busy-wait `while get_color() < threshold` runs
past the end of the trace, or `Queue.get` blocks on an empty queue). -/
inductive MoveOutcome where
  | done
  | normal
  | raised (e : RError)
  | spins
  deriving DecidableEq

/-- The busy-wait `while self.light_sensor.get_color() < 50: pass` of `move`
(source lines 368–369 and 374–375): consumes readings until one reaches the
threshold, returning the remaining trace, or `none` if the trace is
exhausted first. -/
def waitBoundary (threshold : Int) : List Int → Option (List Int)
  | [] => none
  | c :: cs => if c < threshold then waitBoundary threshold cs else some cs

/-- The telemetry send `self.sock.sendall(pickle.dumps(["pos", (x, y)]))` at
source line 398: appends the position message when the socket is open, raises
when it has been closed. -/
def sendPos (s : RobotState) : MoveOutcome × RobotState :=
  if s.sockOpen then (.normal, { s with sent := s.sent ++ [.posTel s.x s.y] })
  else (.raised .sockError, s)

/-- The tail of `move` (source lines 392–398): when the temperature check is
enabled and the reading exceeds 30, the warning `print` at line 395 builds
its message by concatenating a `str` with the non-`str` reading, which raises
`TypeError` before the telemetry send; otherwise the position telemetry is
sent. -/
def afterMove (tc : Bool) (temp : Int) (s : RobotState) :
    MoveOutcome × RobotState :=
  if tc then
    if temp > 30 then
      match pyStrConcat
          "The temperature at the robots location is dangerously high ("
          (.int temp) with
      | .error e => (.raised e, s)
      | .ok _ => sendPos s
    else sendPos s
  else sendPos s

/-- `move(tempeture_check)` (source lines 341–398).  `Queue.get` blocks on an
empty queue (the `except` at line 358 is unreachable for an empty queue), so
that case is `spins`.  `"goal"` returns `"done"` before the temperature check
and the telemetry send.  `"forward"` / `"backward"` call `run()` / `back()`
with the default speed 64 (which cannot raise), busy-wait on the light
sensor, then `brake()`.  `"right"` / `"left"` issue one 90-degree turn pair.
The literal `False` only prints.  Any other value raises the Exception at
line 390.  All paths other than `"goal"` and the raise then fall through to
`afterMove`. -/
def move (tc leftIdle : Bool) (colors : List Int) (temp : Int)
    (s : RobotState) : MoveOutcome × RobotState :=
  match s.queue with
  | [] => (.spins, s)
  | d :: rest =>
    let s0 := { s with queue := rest }
    if d = .str "goal" then (.done, s0)
    else if d = .str "forward" then
      let s1 := (run (.int 64) leftIdle s0).2
      match waitBoundary 50 colors with
      | none => (.spins, s1)
      | some _ => afterMove tc temp (brake s1)
    else if d = .str "backward" then
      let s1 := (back (.int 64) leftIdle s0).2
      match waitBoundary 50 colors with
      | none => (.spins, s1)
      | some _ => afterMove tc temp (brake s1)
    else if d = .str "right" then
      afterMove tc temp
        { s0 with log := s0.log ++ [.mturn .left 64 90, .mturn .right (-64) 90] }
    else if d = .str "left" then
      afterMove tc temp
        { s0 with log := s0.log ++ [.mturn .left (-64) 90, .mturn .right 64 90] }
    else if d = .pyFalse then afterMove tc temp s0
    else (.raised .badMoveDir, s0)

/-- `_update_current_direction(direction)` (source lines 499–511): the
dead-reckoning position update.  Note that `"north"` increments `y` and
`"south"` decrements it; `"center"` and unknown strings leave the position
unchanged. -/
def update_current_direction (s : RobotState) (d : String) : RobotState :=
  if d = "north" then { s with y := s.y + 1 }
  else if d = "east" then { s with x := s.x + 1 }
  else if d = "south" then { s with y := s.y - 1 }
  else if d = "west" then { s with x := s.x - 1 }
  else s

/-- The X-phase advance loop of `move_to_coords` (source lines 447–458),
over an explicit trace of light-sensor readings.  Each iteration re-tests
`current_location_x != X`; a reading above 50 with `cell_update_flag` set
updates the position along the current heading and (when the temperature
check is armed) reads the temperature — the over-threshold warning `print`
at line 454 concatenates a `str` with the non-`str` reading and raises
`TypeError`.  When the first sensor test fails, the `elif` at line 456
re-reads the sensor; since `cell_update_flag` is never cleared, that branch
never fires but still consumes a reading.  (This code is unreachable from
`move_to_coords` — see `pyStrConcat` at line 439 — and is embedded for the
counterfactual in which the progress print succeeded.) -/
def advanceX (tc : Bool) (temp : Int) (X : Int) :
    List Int → Bool → Bool → RobotState → MoveOutcome × RobotState
  | colors, cuf, tcf, s =>
    if s.x ≠ X then
      match colors with
      | [] => (.spins, s)
      | c :: cs =>
        if c > 50 && cuf then
          let s1 := update_current_direction s s.heading
          if tc && tcf then
            if temp > 30 then (.raised .typeError, s1)
            else advanceX tc temp X cs cuf false s1
          else advanceX tc temp X cs cuf tcf s1
        else
          match cs with
          | [] => (.spins, s)
          | c2 :: cs2 =>
            if c2 > 50 && !cuf then advanceX tc temp X cs2 cuf true s
            else advanceX tc temp X cs2 cuf tcf s
    else (.normal, s)

/-- The Y-phase advance loop of `move_to_coords` (source lines 467–479).
The boundary threshold here is 75, and the `elif` at line 477 is nested
under the temperature-check `if` at line 470 (unlike the X loop), so it is
reached only when a boundary was crossed and the temperature check was not
armed.  (Unreachable from `move_to_coords`, embedded for the
counterfactual.) -/
def advanceY (tc : Bool) (temp : Int) (Y : Int) :
    List Int → Bool → Bool → RobotState → MoveOutcome × RobotState
  | colors, cuf, tcf, s =>
    if s.y ≠ Y then
      match colors with
      | [] => (.spins, s)
      | c :: cs =>
        if c > 75 && cuf then
          let s1 := update_current_direction s s.heading
          if tc && tcf then
            if temp > 30 then (.raised .typeError, s1)
            else advanceY tc temp Y cs cuf false s1
          else
            match cs with
            | [] => (.spins, s1)
            | c2 :: cs2 =>
              if c2 > 50 && !cuf then advanceY tc temp Y cs2 cuf true s1
              else advanceY tc temp Y cs2 cuf tcf s1
        else advanceY tc temp Y cs cuf tcf s
    else (.normal, s)

/-- The body of `move_to_coords` after the progress print (source lines
441–481): turn for the X axis (east when `current_location_x < X`, else
west), `run()`, the X advance loop, `brake()`, turn for the Y axis (south
when `current_location_y < Y`, else north), `run()`, the Y advance loop,
`brake()`, and the completion print at line 481, which again concatenates a
`str` with the `X` coordinate.  Motor calls are taken to succeed
(`noFail`).  (Unreachable from `move_to_coords` for the same reason as the
advance loops.) -/
def moveToCoordsBody (tc leftIdle : Bool) (colorsX colorsY : List Int)
    (temp : Int) (X Y : Int) (s : RobotState) : MoveOutcome × RobotState :=
  let p1 := if s.x < X then turn_cardinal noFail s "east"
            else turn_cardinal noFail s "west"
  match p1.1 with
  | some e => (.raised e, p1.2)
  | none =>
    let s2 := (run (.int 64) leftIdle p1.2).2
    match advanceX tc temp X colorsX true true s2 with
    | (.normal, s3) =>
      let s4 := brake s3
      let p2 := if s4.y < Y then turn_cardinal noFail s4 "south"
                else turn_cardinal noFail s4 "north"
      match p2.1 with
      | some e => (.raised e, p2.2)
      | none =>
        let s5 := (run (.int 64) leftIdle p2.2).2
        match advanceY tc temp Y colorsY true true s5 with
        | (.normal, s6) =>
          let s7 := brake s6
          match pyStrConcat "Robot has reaches it destination at: ("
              (.int X) with
          | .error e => (.raised e, s7)
          | .ok _ => (.normal, s7)
        | out => out
    | out => out

/-- `move_to_coords(coordinate=(X, Y), tempeture_check)` with an explicit
coordinate (source lines 400–481).  Its first statement, the progress print
at line 439, builds its message as
`"The robot has started to move_to_coords to: (" + X + ", " + Y + ")"`,
concatenating a `str` with the `X` coordinate: for an integer coordinate
Python raises `TypeError` there, before any turn or motor command. -/
def move_to_coords (tc leftIdle : Bool) (colorsX colorsY : List Int)
    (temp : Int) (X Y : Int) (s : RobotState) : MoveOutcome × RobotState :=
  match pyStrConcat "The robot has started to move_to_coords to: ("
      (.int X) with
  | .error e => (.raised e, s)
  | .ok _ => moveToCoordsBody tc leftIdle colorsX colorsY temp X Y s

/-- A concrete robot state: at grid cell (1, 1), heading north, connected,
running, drivetrain idle, empty queue and logs. -/
def st0 : RobotState :=
  { x := 1, y := 1, heading := "north", RUN := true, MANUAL := false,
    sockOpen := true, brickOpen := true, motorsRunning := false,
    queue := [], sent := [], log := [] }

/-- `st0` with heading west (used by the turn counterexamples). -/
def stWest : RobotState := { st0 with heading := "west" }

/-- `st0` with a single `"forward"` directive queued. -/
def stFwd : RobotState := { st0 with queue := [.str "forward"] }

/-- `st0` with the drivetrain currently commanded to run. -/
def stRunning : RobotState :=
  { st0 with motorsRunning := true,
             log := [.mrun .left 64, .mrun .right 64] }

theorem firstFailIdx_noFail (n : Nat) : firstFailIdx noFail n = none := by
  simp [firstFailIdx, noFail]

theorem heading_after_turn_to (t : RobotState) (a : String) :
    (if t.heading = a then t
     else { t with heading := a,
                   log := t.log ++ turnCmds t.heading a }).heading = a := by
  by_cases h : t.heading = a <;> simp [h]

theorem turn_noFail_valid (s : RobotState) (d : String)
    (h : validDir d = true) :
    turn_cardinal noFail s d =
      (none, if s.heading = d then s
             else { s with heading := d,
                           log := s.log ++ turnCmds s.heading d }) := by
  by_cases hd : s.heading = d
  · simp [turn_cardinal, h, hd]
  · simp [turn_cardinal, h, hd, firstFailIdx_noFail]

/-- C4 counterexample: the claim fails on the code in two places.  The
opposite pair north→south does not issue a half turn on both motors: the
left motor is commanded 90 degrees and the right motor 180 (source lines
258–259).  And the reverse quarter turns west→north and north→west issue
identical command pairs, so under any fixed sign convention one of the two
is in the geometrically wrong rotational sense. -/
theorem turn_table_cex :
    turnCmds "north" "south" =
      [.mturn .left 64 90, .mturn .right (-64) 180] ∧
    turnCmds "west" "north" = turnCmds "north" "west" :=
  ⟨rfl, rfl⟩

/-- C4 (amended): the turn table is total over the 4×4 valid heading pairs.
Identity pairs issue no motor commands and leave the whole state (in
particular the position) unchanged.  Each adjacent pair issues exactly one
quarter-turn pair (90 degrees on both motors, magnitude 64, opposite
signs), with the rotational senses exactly as enumerated here — senses
which are not globally consistent, west→north and north→west coinciding.
The opposite pairs west↔east and south→north issue half-turn pairs (180
degrees on both motors, opposite signs), while north→south issues 90
degrees on the left motor and 180 on the right. -/
theorem turn_table_amended :
    (∀ h : String, validDir h = true →
      turnCmds h h = [] ∧
      ∀ (f : Nat → Bool) (s : RobotState), s.heading = h →
        turn_cardinal f s h = (none, s)) ∧
    turnCmds "west" "east" = [.mturn .left 64 180, .mturn .right (-64) 180] ∧
    turnCmds "east" "west" = [.mturn .left 64 180, .mturn .right (-64) 180] ∧
    turnCmds "south" "north" =
      [.mturn .left (-64) 180, .mturn .right 64 180] ∧
    turnCmds "north" "south" =
      [.mturn .left 64 90, .mturn .right (-64) 180] ∧
    turnCmds "west" "north" = [.mturn .left 64 90, .mturn .right (-64) 90] ∧
    turnCmds "west" "south" = [.mturn .left (-64) 90, .mturn .right 64 90] ∧
    turnCmds "east" "north" = [.mturn .left 64 90, .mturn .right (-64) 90] ∧
    turnCmds "east" "south" = [.mturn .left (-64) 90, .mturn .right 64 90] ∧
    turnCmds "north" "west" = [.mturn .left 64 90, .mturn .right (-64) 90] ∧
    turnCmds "north" "east" = [.mturn .left (-64) 90, .mturn .right 64 90] ∧
    turnCmds "south" "west" = [.mturn .left (-64) 90, .mturn .right 64 90] ∧
    turnCmds "south" "east" = [.mturn .left 64 90, .mturn .right (-64) 90] := by
  refine ⟨?_, rfl, rfl, rfl, rfl, rfl, rfl, rfl, rfl, rfl, rfl, rfl, rfl⟩
  intro h hv
  have hcases : h = "west" ∨ h = "east" ∨ h = "north" ∨ h = "south" := by
    simpa [validDir, or_assoc] using hv
  rcases hcases with rfl | rfl | rfl | rfl <;>
    exact ⟨rfl, fun f s hs => by simp [turn_cardinal, validDir, hs]⟩

theorem turn_table_amended_wit :
    turnCmds "north" "north" = [] ∧
    turn_cardinal noFail st0 "north" = (none, st0) :=
  ⟨(turn_table_amended.1 "north" (by decide)).1,
   (turn_table_amended.1 "north" (by decide)).2 noFail st0 rfl⟩

/-- C5 counterexample: the stored heading is not updated when an underlying
motor call fails.  From heading west, turning to east with the first motor
call failing propagates the motor fault and leaves the state — in
particular the heading — unchanged, because the assignment
`self.current_direction = direction` at source line 272 sits after the
motor calls. -/
theorem turn_motor_fail_heading_cex :
    turn_cardinal (fun i => i == 0) stWest "east" =
      (some .motorFault, stWest) ∧ stWest.heading = "west" :=
  ⟨by decide, rfl⟩

/-- C5 (amended): `turn_cardinal` raises the invalid-direction Exception iff
the direction is not one of west/east/north/south, and on that error the
state is unchanged.  For a valid direction, when every underlying motor
call succeeds the stored heading equals the target afterwards and the
position is unchanged.  When a motor call fails, however, the exception
propagates with the stored heading left unchanged — the heading update is
not unconditional: it happens only after all motor calls return. -/
theorem turn_cardinal_error_amended :
    (∀ (f : Nat → Bool) (s : RobotState) (d : String), validDir d = false →
      turn_cardinal f s d = (some .invalidDirection, s)) ∧
    (∀ (f : Nat → Bool) (s : RobotState) (d : String), validDir d = true →
      firstFailIdx f (turnCmds s.heading d).length = none →
      (turn_cardinal f s d).1 = none ∧
      (turn_cardinal f s d).2.heading = d ∧
      (turn_cardinal f s d).2.x = s.x ∧ (turn_cardinal f s d).2.y = s.y) ∧
    (∀ (f : Nat → Bool) (s : RobotState) (d : String) (k : Nat),
      validDir d = true → s.heading ≠ d →
      firstFailIdx f (turnCmds s.heading d).length = some k →
      (turn_cardinal f s d).1 = some .motorFault ∧
      (turn_cardinal f s d).2.heading = s.heading ∧
      (turn_cardinal f s d).2.x = s.x ∧ (turn_cardinal f s d).2.y = s.y) := by
  refine ⟨?_, ?_, ?_⟩
  · intro f s d hv
    simp [turn_cardinal, hv]
  · intro f s d hv hnone
    by_cases hd : s.heading = d
    · simp [turn_cardinal, hv, hd]
    · simp [turn_cardinal, hv, hd, hnone]
  · intro f s d k hv hd hsome
    simp [turn_cardinal, hv, hd, hsome]

theorem turn_cardinal_error_amended_wit :
    turn_cardinal noFail st0 "up" = (some .invalidDirection, st0) ∧
    ((turn_cardinal noFail stWest "east").1 = none ∧
     (turn_cardinal noFail stWest "east").2.heading = "east" ∧
     (turn_cardinal noFail stWest "east").2.x = stWest.x ∧
     (turn_cardinal noFail stWest "east").2.y = stWest.y) ∧
    ((turn_cardinal (fun i => i == 0) stWest "east").1 = some .motorFault ∧
     (turn_cardinal (fun i => i == 0) stWest "east").2.heading =
       stWest.heading ∧
     (turn_cardinal (fun i => i == 0) stWest "east").2.x = stWest.x ∧
     (turn_cardinal (fun i => i == 0) stWest "east").2.y = stWest.y) :=
  ⟨turn_cardinal_error_amended.1 noFail st0 "up" (by decide),
   turn_cardinal_error_amended.2.1 noFail stWest "east" (by decide)
     (by decide),
   turn_cardinal_error_amended.2.2 (fun i => i == 0) stWest "east" 0
     (by decide) (by decide) (by decide)⟩

/-- C6: for every pair of valid headings (a, b), starting from recorded
heading `a`, turning to `b` and then back to `a` (with the motor calls
succeeding) leaves the recorded heading equal to `a`. -/
theorem turn_roundtrip_heading :
    ∀ (s : RobotState) (a b : String), validDir a = true →
      validDir b = true → s.heading = a →
      ∃ s1 s2, turn_cardinal noFail s b = (none, s1) ∧
        turn_cardinal noFail s1 a = (none, s2) ∧ s2.heading = a := by
  intro s a b ha hb _hs
  refine ⟨_, _, turn_noFail_valid s b hb, turn_noFail_valid _ a ha, ?_⟩
  exact heading_after_turn_to _ a

theorem turn_roundtrip_heading_wit :
    ∃ s1 s2, turn_cardinal noFail st0 "east" = (none, s1) ∧
      turn_cardinal noFail s1 "north" = (none, s2) ∧
      s2.heading = "north" :=
  turn_roundtrip_heading st0 "north" "east" (by decide) (by decide) rfl

theorem recvAux_enqueue (s : RobotState) (m : Msg) (hs : s.sockOpen = true)
    (hm : controlMsg m = false) :
    recvAux s (.msg m) = { s with queue := s.queue ++ [m] } := by
  cases m with
  | str t =>
    simp only [controlMsg, Bool.or_eq_false_iff, beq_eq_false_iff_ne,
      ne_eq] at hm
    obtain ⟨⟨⟨⟨h1, h2⟩, h3⟩, h4⟩, h5⟩ := hm
    simp [recvAux, hs, h1, h2, h3, h4, h5]
  | pair x y => simp [recvAux, hs]
  | pyFalse => simp [recvAux, hs]
  | posTel x y => simp [recvAux, hs]

theorem processMsgs_noncontrol (ms : List Msg) :
    ∀ s : RobotState, s.sockOpen = true →
      (∀ m ∈ ms, controlMsg m = false) →
      processMsgs s ms = { s with queue := s.queue ++ ms } := by
  induction ms with
  | nil =>
    intro s _ _
    simp [processMsgs]
  | cons m ms ih =>
    intro s hs hall
    have hm : controlMsg m = false := hall m (by simp)
    have hrest : ∀ m' ∈ ms, controlMsg m' = false := fun m' h =>
      hall m' (by simp [h])
    have step : processMsgs s (m :: ms) =
        processMsgs (recvAux s (.msg m)) ms := rfl
    rw [step, recvAux_enqueue s m hs hm,
      ih { s with queue := s.queue ++ [m] } (by simpa using hs) hrest]
    simp

theorem consumeN_spec (n : Nat) :
    ∀ s : RobotState,
      consumeN n s = (s.queue.take n, { s with queue := s.queue.drop n }) := by
  induction n with
  | zero =>
    intro s
    simp [consumeN]
  | succ n ih =>
    intro s
    cases s with
    | mk x y hd run man so bo mr q snt lg =>
      cases q with
      | nil => simp [consumeN]
      | cons m rest => simp [consumeN, ih]

/-- C3: every inbound message decoded as one of the five control strings is
handled inside `_recv_aux` itself and never placed on `direction_queue`;
every other decoded message is appended to the queue; and the motion side's
repeated `Queue.get` calls dequeue the enqueued directives exactly once
each, in strict FIFO arrival order (consuming the whole queue returns
exactly the enqueued list, in order, and empties the queue). -/
theorem recv_dispatch_fifo :
    ∀ s : RobotState, s.sockOpen = true →
      (∀ m : Msg, controlMsg m = true →
        (recvAux s (.msg m)).queue = s.queue) ∧
      (∀ ms : List Msg, (∀ m ∈ ms, controlMsg m = false) →
        processMsgs s ms = { s with queue := s.queue ++ ms } ∧
        consumeN (s.queue ++ ms).length (processMsgs s ms) =
          (s.queue ++ ms, { s with queue := [] })) := by
  intro s hs
  constructor
  · intro m hm
    cases m with
    | str t =>
      have hc : t = "end" ∨ t = "manual" ∨ t = "auto" ∨ t = "start" ∨
          t = "stop" := by
        simpa [controlMsg, or_assoc] using hm
      rcases hc with rfl | rfl | rfl | rfl | rfl <;>
        simp [recvAux, hs, disconnect, stop]
    | pair x y => simp [controlMsg] at hm
    | pyFalse => simp [controlMsg] at hm
    | posTel x y => simp [controlMsg] at hm
  · intro ms hall
    have hp := processMsgs_noncontrol ms s hs hall
    refine ⟨hp, ?_⟩
    rw [hp, consumeN_spec]
    simp

theorem recv_dispatch_fifo_wit :
    ((recvAux st0 (.msg (.str "stop"))).queue = st0.queue) ∧
    (processMsgs st0 [Msg.pair 2 3, Msg.str "forward"] =
        { st0 with queue := st0.queue ++ [Msg.pair 2 3, Msg.str "forward"] } ∧
      consumeN (st0.queue ++ [Msg.pair 2 3, Msg.str "forward"]).length
          (processMsgs st0 [Msg.pair 2 3, Msg.str "forward"]) =
        (st0.queue ++ [Msg.pair 2 3, Msg.str "forward"],
          { st0 with queue := [] })) :=
  ⟨(recv_dispatch_fifo st0 rfl).1 (.str "stop") (by decide),
   (recv_dispatch_fifo st0 rfl).2 [Msg.pair 2 3, Msg.str "forward"]
     (by decide)⟩

theorem recvAux_closed (s : RobotState) (hv : s.sockOpen = false)
    (ev : RecvEvent) : recvAux s ev = s := by
  cases ev with
  | recvFailed => rfl
  | msg m => simp [recvAux, hv]

theorem processEvents_closed (evs : List RecvEvent) :
    ∀ s : RobotState, s.sockOpen = false → processEvents s evs = s := by
  induction evs with
  | nil => intro s _; rfl
  | cons ev evs ih =>
    intro s hv
    have h1 : processEvents s (ev :: evs) =
        processEvents (recvAux s ev) evs := rfl
    rw [h1, recvAux_closed s hv ev]
    exact ih s hv

/-- C7: evaluation at the failing input.  Processing `"end"` from a
connected state clears the `RUN` flag, sends the final `"end"`
acknowledgement, and closes both sockets — but the `while True` loop of
`recv(None)` has no exit: the state reached after `"end"` is a fixpoint of
every further iteration (each subsequent `sock.recv` on the closed socket
raises and is swallowed by the `except: pass`), so the loop never
terminates; it also never sends anything further (the `sent` log is frozen),
which is how the source fails the claim's "the receive loop terminates"
while satisfying its other clauses. -/
theorem recv_end_no_exit_eval :
    (recvAux st0 (.msg (.str "end"))).RUN = false ∧
    (recvAux st0 (.msg (.str "end"))).sent = [.str "end"] ∧
    (recvAux st0 (.msg (.str "end"))).sockOpen = false ∧
    (recvAux st0 (.msg (.str "end"))).brickOpen = false ∧
    ∀ evs : List RecvEvent,
      processEvents (recvAux st0 (.msg (.str "end"))) evs =
        recvAux st0 (.msg (.str "end")) := by
  refine ⟨by decide, by decide, by decide, by decide, ?_⟩
  intro evs
  exact processEvents_closed evs _ (by decide)

/-- C8: evaluation at the failing input.  From a state in which the
drivetrain is commanded to run, the `"stop"` handler clears `RUN` but
issues no motor command (`stop()` only plays a tone and clears the flag),
and the `"end"` handler closes the transport while the drivetrain is still
commanded to run — no halt/brake command is issued anywhere in either
shutdown path, contradicting the claimed shutdown ordering. -/
theorem shutdown_motors_running_eval :
    (recvAux stRunning (.msg (.str "end"))).sockOpen = false ∧
    (recvAux stRunning (.msg (.str "end"))).motorsRunning = true ∧
    (recvAux stRunning (.msg (.str "end"))).log = stRunning.log ∧
    (recvAux stRunning (.msg (.str "stop"))).RUN = false ∧
    (recvAux stRunning (.msg (.str "stop"))).motorsRunning = true ∧
    (recvAux stRunning (.msg (.str "stop"))).log = stRunning.log := by
  decide

/-- C1 counterexample: a completed `"forward"` step — drivetrain started,
boundary crossed at the first sensor reading, drivetrain braked, temperature
reading 20 — returns normally with the stored position still (1, 1).  `move`
changes neither coordinate: the claimed ±1 position update does not happen
(`_update_current_direction` is never called from `move`). -/
theorem move_forward_position_unchanged_cex :
    (move true true [60] 20 stFwd).1 = .normal ∧
    (move true true [60] 20 stFwd).2.x = 1 ∧
    (move true true [60] 20 stFwd).2.y = 1 ∧
    stFwd.x = 1 ∧ stFwd.y = 1 := by
  decide

/-- C1 (amended): for a MoveForward / MoveBackward directive executed by
`move` with the left motor idle, the drivetrain is started (both motors
commanded at +64 for forward, −64 for backward), the routine blocks until
the light reading reaches the 50 threshold, and the drivetrain is then
braked — but the stored position is left unchanged along both axes, and the
position telemetry sent afterwards carries the unchanged coordinates.
(Stated for a temperature reading of at most 30; the over-threshold warning
path raises instead — see C9.) -/
theorem move_step_amended :
    ∀ (s : RobotState) (rest : List Msg) (d : String)
      (colors tail : List Int) (temp : Int),
      (d = "forward" ∨ d = "backward") →
      s.queue = Msg.str d :: rest →
      waitBoundary 50 colors = some tail →
      temp ≤ 30 → s.sockOpen = true →
      ∃ sp : Int,
        (move true true colors temp s).1 = .normal ∧
        (move true true colors temp s).2.x = s.x ∧
        (move true true colors temp s).2.y = s.y ∧
        (move true true colors temp s).2.log =
          s.log ++ [.mrun .left sp, .mrun .right sp, .mbrake .left,
            .mbrake .right] ∧
        (move true true colors temp s).2.sent =
          s.sent ++ [.posTel s.x s.y] ∧
        (move true true colors temp s).2.queue = rest ∧
        (d = "forward" → sp = 64) ∧ (d = "backward" → sp = -64) := by
  intro s rest d colors tail temp hd hq hw htemp hsock
  have hnt : ¬ temp > 30 := by omega
  rcases hd with rfl | rfl
  · exact ⟨64, by
      simp [move, hq, hw, run, brake, afterMove, sendPos, hsock, hnt,
        pyStrConcat]⟩
  · exact ⟨-64, by
      simp [move, hq, hw, back, brake, afterMove, sendPos, hsock, hnt,
        pyStrConcat]⟩

theorem move_step_amended_wit :
    ∃ sp : Int,
      (move true true [60] 20 stFwd).1 = .normal ∧
      (move true true [60] 20 stFwd).2.x = stFwd.x ∧
      (move true true [60] 20 stFwd).2.y = stFwd.y ∧
      (move true true [60] 20 stFwd).2.log =
        stFwd.log ++ [.mrun .left sp, .mrun .right sp, .mbrake .left,
          .mbrake .right] ∧
      (move true true [60] 20 stFwd).2.sent =
        stFwd.sent ++ [.posTel stFwd.x stFwd.y] ∧
      (move true true [60] 20 stFwd).2.queue = [] ∧
      ("forward" = "forward" → sp = 64) ∧
      ("forward" = "backward" → sp = -64) :=
  move_step_amended stFwd [] "forward" [60] [] 20 (Or.inl rfl) rfl rfl
    (by decide) rfl

/-- C2: evaluation at the failing input.  From (1, 1) heading north with
target coordinate (4, 1), `move_to_coords` raises `TypeError` immediately:
its first statement, the progress print at source line 439, concatenates a
`str` with the integer X coordinate.  No turn and no step is issued and the
state — position, heading, motor log — is returned unchanged, against the
claimed one TurnTo(East) plus three confirmed forward steps ending at
(4, 1). -/
theorem move_to_coords_typeerror_eval :
    move_to_coords true true [60, 60, 60] [60] 20 4 1 st0 =
      (.raised .typeError, st0) := by
  decide

/-- C9: evaluation at the failing input.  A `"forward"` step with the
temperature check enabled and a reading of 35 (above the 30 threshold) does
not merely annotate: the warning `print` at source line 395 concatenates a
`str` with the non-`str` reading, so `TypeError` propagates out of `move` —
the position telemetry at line 398 is skipped (`sent` stays empty) and the
directive's outcome becomes an exception instead of a normal return.  The
position itself is unchanged and no extra motor command is issued beyond
the run/brake pair of the step. -/
theorem temp_warning_typeerror_eval :
    (move true true [60] 35 stFwd).1 = .raised .typeError ∧
    (move true true [60] 35 stFwd).2.sent = [] ∧
    (move true true [60] 35 stFwd).2.x = 1 ∧
    (move true true [60] 35 stFwd).2.y = 1 ∧
    (move true true [60] 35 stFwd).2.log =
      [.mrun .left 64, .mrun .right 64, .mbrake .left, .mbrake .right] := by
  decide

/-- C10: `run(speed)` and `back(speed)` with an `int` speed are silent
no-ops (no motor command, no error) when the left motor is not idle; they
command both motors exactly when the left motor reports idle; and for every
non-`int` speed both raise the speed-type Exception without issuing any
motor command. -/
theorem run_back_guards :
    ∀ (s : RobotState) (idle : Bool) (v : PyVal),
      (∀ n : Int, v = .int n → idle = false →
        run v idle s = (none, s) ∧ back v idle s = (none, s)) ∧
      (∀ n : Int, v = .int n → idle = true →
        run v idle s =
          (none, { s with log := s.log ++ [.mrun .left n, .mrun .right n],
                          motorsRunning := true }) ∧
        back v idle s =
          (none, { s with
                     log := s.log ++ [.mrun .left (-n), .mrun .right (-n)],
                     motorsRunning := true })) ∧
      ((∀ n : Int, v ≠ .int n) →
        run v idle s = (some .notInt, s) ∧
        back v idle s = (some .notInt, s)) := by
  intro s idle v
  refine ⟨?_, ?_, ?_⟩
  · rintro n rfl rfl
    exact ⟨rfl, rfl⟩
  · rintro n rfl rfl
    exact ⟨rfl, rfl⟩
  · intro hv
    cases v with
    | int n => exact absurd rfl (hv n)
    | str t => exact ⟨rfl, rfl⟩
    | boolv b => exact ⟨rfl, rfl⟩
    | noneV => exact ⟨rfl, rfl⟩

theorem run_back_guards_wit :
    (run (.int 64) false st0 = (none, st0) ∧
      back (.int 64) false st0 = (none, st0)) ∧
    (run (.int 64) true st0 =
        (none, { st0 with log := st0.log ++ [.mrun .left 64, .mrun .right 64],
                          motorsRunning := true }) ∧
      back (.int 64) true st0 =
        (none, { st0 with
                   log := st0.log ++ [.mrun .left (-64), .mrun .right (-64)],
                   motorsRunning := true })) ∧
    (run (.str "fast") true st0 = (some .notInt, st0) ∧
      back (.str "fast") true st0 = (some .notInt, st0)) :=
  ⟨(run_back_guards st0 false (.int 64)).1 64 rfl rfl,
   (run_back_guards st0 true (.int 64)).2.1 64 rfl rfl,
   (run_back_guards st0 true (.str "fast")).2.2
     (fun _ h => PyVal.noConfusion h)⟩

end Robot
